import Mathlib

/-
  Verification development for the bakery build engine.

  We shallowly embed the core of the engine:
    * structural flattening of nested Python values (utils.flat_map and
      core.flat_map, which are textually identical),
    * the recipe decorator wrapper (core.Build.recipe / recipes.core),
    * the build facade driver (core.Build.build and its helpers),
    * the shell runner exit behaviour (core.Build.shell / shell.Shell),
    * the exception class hierarchy (core.py / exceptions.py).

  The filesystem is modelled as a map from paths to optional mtimes
  (none means the path does not exist); removing a directory tree is
  abstracted as removing that single path.  Python sets are modelled as
  deduplicated lists.  Producers are modelled as pure transformations of
  the filesystem returning a value.
-/

namespace Bakery

/-! ## Python value model

    Values that flow through flat_map: strings as atomic leaves, and
    lists, tuples, sets and dicts as containers (dict keys are strings). -/

mutual

inductive Value : Type where
  | str (s : String)
  | vlist (xs : VList)
  | vtuple (xs : VList)
  | vset (xs : VList)
  | vdict (kvs : VDict)

inductive VList : Type where
  | nil
  | cons (v : Value) (vs : VList)

inductive VDict : Type where
  | nil
  | cons (k : String) (v : Value) (kvs : VDict)

end

/-- is_iterable from utils.py: lists, tuples, ranges and generators are
    iterable; strings, sets and dicts are not (ranges and generators are
    not representable in this model). -/
def is_iterable : Value → Bool
  | .vlist _ => true
  | .vtuple _ => true
  | _ => false

mutual

/-- flat_map from utils.py / core.py with the identity mapper: sets,
    lists and tuples are flattened element-wise, a dict is flattened over
    its values, and anything else is a single leaf. -/
def flat_map : Value → List String
  | .str s => [s]
  | .vlist xs => flat_map_over xs
  | .vtuple xs => flat_map_over xs
  | .vset xs => flat_map_over xs
  | .vdict kvs => flat_map_values kvs

def flat_map_over : VList → List String
  | .nil => []
  | .cons v vs => flat_map v ++ flat_map_over vs

def flat_map_values : VDict → List String
  | .nil => []
  | .cons _ v kvs => flat_map v ++ flat_map_values kvs

end

mutual

/-- Modelled from the spec wording of the flattening claim: the set of
    leaf paths of a nested value, where a string is one atomic leaf and a
    dict contributes only its values (keys are ignored). -/
def leafPaths : Value → Finset String
  | .str s => {s}
  | .vlist xs => leafPathsList xs
  | .vtuple xs => leafPathsList xs
  | .vset xs => leafPathsList xs
  | .vdict kvs => leafPathsDict kvs

def leafPathsList : VList → Finset String
  | .nil => ∅
  | .cons v vs => leafPaths v ∪ leafPathsList vs

def leafPathsDict : VDict → Finset String
  | .nil => ∅
  | .cons _ v kvs => leafPaths v ∪ leafPathsDict kvs

end

mutual

theorem flat_map_toFinset (v : Value) :
    (flat_map v).toFinset = leafPaths v := by
  cases v with
  | str s => simp [flat_map, leafPaths]
  | vlist xs => simpa [flat_map, leafPaths] using flat_map_over_toFinset xs
  | vtuple xs => simpa [flat_map, leafPaths] using flat_map_over_toFinset xs
  | vset xs => simpa [flat_map, leafPaths] using flat_map_over_toFinset xs
  | vdict kvs => simpa [flat_map, leafPaths] using flat_map_values_toFinset kvs

theorem flat_map_over_toFinset (xs : VList) :
    (flat_map_over xs).toFinset = leafPathsList xs := by
  cases xs with
  | nil => simp [flat_map_over, leafPathsList]
  | cons v vs =>
      simp [flat_map_over, leafPathsList, List.toFinset_append,
        flat_map_toFinset v, flat_map_over_toFinset vs]

theorem flat_map_values_toFinset (kvs : VDict) :
    (flat_map_values kvs).toFinset = leafPathsDict kvs := by
  cases kvs with
  | nil => simp [flat_map_values, leafPathsDict]
  | cons k v rest =>
      simp [flat_map_values, leafPathsDict, List.toFinset_append,
        flat_map_toFinset v, flat_map_values_toFinset rest]

end

/-- C9: structural flattening yields exactly the union of all leaf paths:
    a string is one atomic leaf, nesting depth and order do not affect the
    resulting set, and for a dict only its values are flattened. -/
theorem C9_flat_map_union (v : Value) :
    (flat_map v).toFinset = leafPaths v :=
  flat_map_toFinset v

/-! ## Filesystem model and the recipe wrapper (core.Build.recipe) -/

/-- The filesystem: a path maps to its mtime when it exists. -/
abbrev FS : Type := String → Option Nat

/-- File.remove (core.py): delete the path; a directory tree is
    abstracted as a single path; a nonexistent path is a no-op. -/
def remove_file (fs : FS) (p : String) : FS :=
  fun q => if q = p then none else fs q

/-- Removing a list of files in order, as the clean loop and the
    temp-registry cleanup loop do. -/
def remove_all (fs : FS) (ps : List String) : FS :=
  ps.foldl remove_file fs

theorem remove_all_apply (ps : List String) (fs : FS) (q : String) :
    remove_all fs ps q = if q ∈ ps then none else fs q := by
  induction ps generalizing fs with
  | nil => simp [remove_all]
  | cons p ps ih =>
      by_cases h : q = p
      · subst h
        simp only [remove_all, List.foldl_cons, List.mem_cons, true_or, if_pos]
        rw [show List.foldl remove_file (remove_file fs q) ps = remove_all (remove_file fs q) ps from rfl, ih]
        simp [remove_file]
      · simp only [remove_all, List.foldl_cons, List.mem_cons]
        rw [show List.foldl remove_file (remove_file fs p) ps = remove_all (remove_file fs p) ps from rfl, ih]
        simp [remove_file, h]

/-- The three file roles a recipe declares: positional target roles and
    the keyword check and temp roles (core.Build.recipe arguments). -/
structure RecipeDecl : Type where
  targets : List String
  check : List String
  temp : List String

/-- One recipe invocation: the recipe name, its declared roles and the
    map binding role names to the arguments the producer was called with
    (signature.bind in the source). -/
structure RecipeCtx : Type where
  name : String
  decl : RecipeDecl
  bound : String → Value

/-- target_params: the arguments bound to the target roles (the decorator
    turns the positional role names into a set, modelled by dedup). -/
def tparams (c : RecipeCtx) : List Value :=
  c.decl.targets.dedup.map c.bound

/-- target_files = set(flat_map(target_params)). -/
def target_files (c : RecipeCtx) : List String :=
  ((tparams c).map flat_map).flatten.dedup

/-- check_files = set(flat_map([bound[k] for k in check])). -/
def check_files (c : RecipeCtx) : List String :=
  ((c.decl.check.dedup.map c.bound).map flat_map).flatten.dedup

/-- temp_files = set(flat_map([bound[k] for k in temp])). -/
def temp_files (c : RecipeCtx) : List String :=
  ((c.decl.temp.dedup.map c.bound).map flat_map).flatten.dedup

/-- output_files = target_files | temp_files. -/
def output_files (c : RecipeCtx) : List String :=
  (target_files c ++ temp_files c).dedup

/-- outputs = targets | temp: the set of declared output ROLE names,
    computed once by the decorator before wrapping. -/
def output_roles (c : RecipeCtx) : List String :=
  (c.decl.targets ++ c.decl.temp).dedup

/-- outputs_exist(): all declared output files exist. -/
def outputs_exist (fs : FS) (c : RecipeCtx) : Bool :=
  (output_files c).all (fun f => (fs f).isSome)

/-- check_mtimes(): mtimes of the check files that exist. -/
def check_mtimes (fs : FS) (c : RecipeCtx) : List Nat :=
  (check_files c).filterMap fs

/-- output_mtimes(): mtimes of the output files that exist. -/
def output_mtimes (fs : FS) (c : RecipeCtx) : List Nat :=
  (output_files c).filterMap fs

/-- max of a nonempty mtime list (only used under nonemptiness guards,
    as the source only calls max on lists it has just tested truthy). -/
def maxl (l : List Nat) : Nat :=
  l.foldl max 0

/-- outputs_up_to_date() as written in the source, with Python truthiness
    made explicit:
    `outputs and outputs_exist() and ((check_mtimes() and output_mtimes())
      and (max(check_mtimes()) <= max(output_mtimes())) or not check_files)`.
    Note the leading conjunct on the ROLE set `outputs` being nonempty. -/
def outputs_up_to_date (fs : FS) (c : RecipeCtx) : Bool :=
  !(output_roles c).isEmpty && outputs_exist fs c &&
    ((!(check_mtimes fs c).isEmpty && !(output_mtimes fs c).isEmpty
        && decide (maxl (check_mtimes fs c) ≤ maxl (output_mtimes fs c)))
      || (check_files c).isEmpty)

/-- The result a recipe wrapper returns without raising. -/
inductive WrapResult : Type where
  | verbatim (v : Value)
  | fileSet (files : List String)
  | producerResult (v : Value)

/-- The structured content of the BuildError raised when a recipe fails
    to create its prescribed output (the format arguments of the message
    in build_recipe). -/
structure RecipeBuildError : Type where
  name : String
  errCheck : List String
  errOutputs : List String

/-- coalesce_default_outputs(): with exactly one target role bound to a
    single non-iterable argument, return that argument verbatim,
    otherwise return the whole output file set. -/
def coalesce_default_outputs (c : RecipeCtx) : WrapResult :=
  if c.decl.targets.dedup.length = 1 && (tparams c).length = 1
      && !is_iterable ((tparams c).headD (.str "")) then
    .verbatim ((tparams c).headD (.str ""))
  else
    .fileSet (output_files c)

/-- clean(): remove the output files, but only when outputs_exist(),
    i.e. only when ALL of them exist. -/
def clean_fs (fs : FS) (c : RecipeCtx) : FS :=
  if outputs_exist fs c then remove_all fs (output_files c) else fs

/-- The observable outcome of one recipe wrapper invocation. -/
structure WrapOutcome : Type where
  fs : FS
  registry : List String
  producerRan : Bool
  result : Except RecipeBuildError WrapResult

/-- The recipe wrapper (core.Build.recipe.decorator.wrapper): clean mode
    removes outputs and returns the coalesced result; an up-to-date
    invocation skips the producer and returns the coalesced result;
    otherwise build_recipe() runs the producer, extends the temp-file
    registry with temp_files, and raises BuildError when the outputs are
    still not up to date.  The producer is modelled as a pure
    transformation of the filesystem returning its result value. -/
def recipe_wrapper (cleaning : Bool) (producer : FS → FS × Value)
    (fs : FS) (registry : List String) (c : RecipeCtx) : WrapOutcome :=
  if cleaning then
    ⟨clean_fs fs c, registry, false, .ok (coalesce_default_outputs c)⟩
  else if outputs_up_to_date fs c then
    ⟨fs, registry, false, .ok (coalesce_default_outputs c)⟩
  else
    let pr := producer fs
    let registry2 := registry ++ temp_files c
    if outputs_up_to_date pr.1 c then
      ⟨pr.1, registry2, true, .ok (.producerResult pr.2)⟩
    else
      ⟨pr.1, registry2, true, .error ⟨c.name, check_files c, output_files c⟩⟩

/-- Modelled from the claim wording for the up-to-date test: all declared
    output files exist, and either the check set is empty or the maximum
    mtime over the existing check files is at most the maximum mtime over
    the existing output files (both maxima must exist). -/
def claim_up_to_date (fs : FS) (c : RecipeCtx) : Bool :=
  outputs_exist fs c &&
    ((check_files c).isEmpty ||
      (!(check_mtimes fs c).isEmpty && !(output_mtimes fs c).isEmpty
        && decide (maxl (check_mtimes fs c) ≤ maxl (output_mtimes fs c))))

/-! ## Branch lemmas for the wrapper -/

theorem recipe_wrapper_clean (producer : FS → FS × Value) (fs : FS)
    (registry : List String) (c : RecipeCtx) :
    recipe_wrapper true producer fs registry c =
      ⟨clean_fs fs c, registry, false, .ok (coalesce_default_outputs c)⟩ :=
  rfl

theorem recipe_wrapper_skip (producer : FS → FS × Value) (fs : FS)
    (registry : List String) (c : RecipeCtx)
    (hu : outputs_up_to_date fs c = true) :
    recipe_wrapper false producer fs registry c =
      ⟨fs, registry, false, .ok (coalesce_default_outputs c)⟩ := by
  simp [recipe_wrapper, hu]

theorem recipe_wrapper_run_ok (producer : FS → FS × Value) (fs : FS)
    (registry : List String) (c : RecipeCtx)
    (h1 : outputs_up_to_date fs c = false)
    (h2 : outputs_up_to_date (producer fs).1 c = true) :
    recipe_wrapper false producer fs registry c =
      ⟨(producer fs).1, registry ++ temp_files c, true,
        .ok (.producerResult (producer fs).2)⟩ := by
  simp [recipe_wrapper, h1, h2]

theorem recipe_wrapper_run_fail (producer : FS → FS × Value) (fs : FS)
    (registry : List String) (c : RecipeCtx)
    (h1 : outputs_up_to_date fs c = false)
    (h2 : outputs_up_to_date (producer fs).1 c = false) :
    recipe_wrapper false producer fs registry c =
      ⟨(producer fs).1, registry ++ temp_files c, true,
        .error ⟨c.name, check_files c, output_files c⟩⟩ := by
  simp [recipe_wrapper, h1, h2]

/-- The up-to-date test of the source equals the claim-worded test
    strengthened by the extra conjunct on the declared role set. -/
theorem up_to_date_eq (fs : FS) (c : RecipeCtx) :
    outputs_up_to_date fs c =
      (!(output_roles c).isEmpty && claim_up_to_date fs c) := by
  unfold outputs_up_to_date claim_up_to_date
  generalize decide (maxl (check_mtimes fs c) ≤ maxl (output_mtimes fs c)) = d
  generalize (check_mtimes fs c).isEmpty = b1
  generalize (output_mtimes fs c).isEmpty = b2
  generalize (check_files c).isEmpty = b3
  generalize outputs_exist fs c = a
  generalize (output_roles c).isEmpty = e
  cases d <;> cases b1 <;> cases b2 <;> cases b3 <;> cases a <;> cases e <;> rfl

/-! ## Claim C1 -/

/-- A recipe declaring no target and no temp role at all. -/
def ctx0 : RecipeCtx := ⟨"r0", ⟨[], [], []⟩, fun _ => .str "x"⟩

/-- An empty filesystem. -/
def fs0 : FS := fun _ => none

/-- A producer with no filesystem effect. -/
def producerId : FS → FS × Value := fun fs => (fs, .str "done")

/-- C1 counterexample: for a recipe declaring no target and no temp
    role, the claim-worded condition holds (all of the zero declared
    output files exist and the check set is empty), yet the producer is
    invoked, because the source additionally requires the declared role
    set to be nonempty. -/
theorem C1_counterexample :
    claim_up_to_date fs0 ctx0 = true ∧
      (recipe_wrapper false producerId fs0 [] ctx0).producerRan = true :=
  ⟨rfl, rfl⟩

/-- C1 (amended): in normal mode the producer is skipped if and only if
    the declared role set (targets and temp) is nonempty, all declared
    output files exist, and either the check set is empty or the maximum
    mtime over the existing check files is at most the maximum mtime over
    the existing output files. -/
theorem C1_up_to_date_skip (producer : FS → FS × Value) (fs : FS)
    (registry : List String) (c : RecipeCtx) :
    (recipe_wrapper false producer fs registry c).producerRan = false ↔
      ((output_roles c).isEmpty = false ∧ claim_up_to_date fs c = true) := by
  have h := up_to_date_eq fs c
  by_cases hu : outputs_up_to_date fs c = true
  · have h2 := hu
    rw [h] at h2
    simp only [Bool.and_eq_true, Bool.not_eq_true'] at h2
    rw [recipe_wrapper_skip producer fs registry c hu]
    simpa using h2
  · have hu' : outputs_up_to_date fs c = false := by
      simpa using hu
    have h2 : ¬((output_roles c).isEmpty = false ∧ claim_up_to_date fs c = true) := by
      intro hcl
      apply hu
      rw [h]
      simp [hcl.1, hcl.2]
    by_cases h3 : outputs_up_to_date (producer fs).1 c = true
    · rw [recipe_wrapper_run_ok producer fs registry c hu' h3]
      simpa using h2
    · rw [recipe_wrapper_run_fail producer fs registry c hu' (by simpa using h3)]
      simpa using h2

/-! ## Claim C2 -/

/-- A recipe with one target role and one temp role, bound to scalar
    paths. -/
def ctx2 : RecipeCtx :=
  ⟨"r2", ⟨["t"], [], ["tmp"]⟩,
    fun k => if k = "t" then .str "target.txt" else .str "temp.txt"⟩

/-- C2 counterexample: a producer that creates none of its declared
    outputs makes the wrapper raise BuildError, but the temp file WAS
    appended to the temp registry before the error was raised (the source
    extends the registry before re-checking the outputs). -/
theorem C2_counterexample :
    (recipe_wrapper false producerId fs0 [] ctx2).result =
        .error ⟨"r2", [], ["target.txt", "temp.txt"]⟩ ∧
      (recipe_wrapper false producerId fs0 [] ctx2).registry = ["temp.txt"] :=
  ⟨rfl, rfl⟩

/-- C2 (amended): when the producer returns and the declared outputs are
    still not up to date, the wrapper raises BuildError carrying the
    recipe name and its declared role files, and the temp files have been
    appended to the temp-file registry before the error is raised. -/
theorem C2_missing_output (producer : FS → FS × Value) (fs : FS)
    (registry : List String) (c : RecipeCtx)
    (h1 : outputs_up_to_date fs c = false)
    (h2 : outputs_up_to_date (producer fs).1 c = false) :
    (recipe_wrapper false producer fs registry c).result =
        .error ⟨c.name, check_files c, output_files c⟩ ∧
      (recipe_wrapper false producer fs registry c).registry =
        registry ++ temp_files c ∧
      (recipe_wrapper false producer fs registry c).producerRan = true := by
  rw [recipe_wrapper_run_fail producer fs registry c h1 h2]
  exact ⟨rfl, rfl, rfl⟩

/-- C2 witness: the amended statement at a concrete invocation. -/
theorem C2_witness :
    (recipe_wrapper false producerId fs0 [] ctx2).result =
        .error ⟨ctx2.name, check_files ctx2, output_files ctx2⟩ ∧
      (recipe_wrapper false producerId fs0 [] ctx2).registry =
        [] ++ temp_files ctx2 ∧
      (recipe_wrapper false producerId fs0 [] ctx2).producerRan = true :=
  C2_missing_output producerId fs0 [] ctx2 rfl rfl

/-! ## Claim C3 -/

/-- Modelled from the claim wording of the coalesced return: with
    exactly one declared target role whose bound argument is a single
    non-sequence value, that argument is returned verbatim; every other
    combination returns the full output file set. -/
def coalesce_claim (c : RecipeCtx) : WrapResult :=
  match c.decl.targets.dedup with
  | [k] =>
      if is_iterable (c.bound k) then .fileSet (output_files c)
      else .verbatim (c.bound k)
  | _ => .fileSet (output_files c)

/-- The source coalescing agrees with the claim-worded coalescing. -/
theorem coalesce_eq (c : RecipeCtx) :
    coalesce_default_outputs c = coalesce_claim c := by
  rcases h : c.decl.targets.dedup with _ | ⟨k, _ | ⟨k2, rest⟩⟩ <;>
    simp only [coalesce_default_outputs, coalesce_claim, tparams, h,
      List.map_nil, List.map_cons, List.length_nil, List.length_cons,
      List.headD_cons]
  · simp
  · cases hi : is_iterable (c.bound k) <;> simp [hi]
  · simp

/-- C3: whenever the result is not produced by running the producer (the
    clean branch and the up-to-date skip branch), a recipe with exactly
    one declared target role bound to a single non-sequence argument
    returns that argument verbatim, and every other combination returns
    the full output file set. -/
theorem C3_coalesced_return (cleaning : Bool) (producer : FS → FS × Value)
    (fs : FS) (registry : List String) (c : RecipeCtx)
    (h : cleaning = true ∨ outputs_up_to_date fs c = true) :
    (recipe_wrapper cleaning producer fs registry c).result =
      .ok (coalesce_claim c) := by
  cases cleaning with
  | true =>
      rw [recipe_wrapper_clean producer fs registry c, coalesce_eq]
  | false =>
      rcases h with h | h
      · exact absurd h (by simp)
      · rw [recipe_wrapper_skip producer fs registry c h, coalesce_eq]

/-- A single-target recipe bound to a scalar object path. -/
def ctx3 : RecipeCtx :=
  ⟨"r3", ⟨["obj"], ["src"], []⟩,
    fun k => if k = "obj" then .str "a.o" else .str "a.c"⟩

/-- C3 witness: in clean mode the single-target scalar-bound recipe
    returns the bare bound argument. -/
theorem C3_witness :
    (recipe_wrapper true producerId fs0 [] ctx3).result =
        .ok (coalesce_claim ctx3) ∧
      coalesce_claim ctx3 = .verbatim (.str "a.o") :=
  ⟨C3_coalesced_return true producerId fs0 [] ctx3 (Or.inl rfl), rfl⟩

/-! ## Claim C4 -/

/-- A recipe whose single target role is bound to the two paths a, b. -/
def ctx4 : RecipeCtx :=
  ⟨"r4", ⟨["t"], [], []⟩,
    fun _ => .vlist (.cons (.str "a") (.cons (.str "b") .nil))⟩

/-- A filesystem containing only the path a. -/
def fs4 : FS := fun p => if p = "a" then some 1 else none

/-- C4 counterexample: with output files a and b of which only a exists,
    clean mode removes nothing (the source only removes when ALL output
    files exist), though the claim demands that the existing file a be
    removed. -/
theorem C4_counterexample :
    "a" ∈ output_files ctx4 ∧ fs4 "a" = some 1 ∧
      (recipe_wrapper true producerId fs4 [] ctx4).fs "a" = some 1 :=
  ⟨by decide, rfl, rfl⟩

/-- C4 (amended): in clean mode the producer is never invoked, the
    temp registry is untouched and the coalesced result is returned;
    when all declared output files exist every file in output_files is
    removed, and when at least one declared output file is missing no
    file is removed; paths outside output_files are never touched. -/
theorem C4_clean_mode (producer : FS → FS × Value) (fs : FS)
    (registry : List String) (c : RecipeCtx) :
    (recipe_wrapper true producer fs registry c).producerRan = false ∧
      (recipe_wrapper true producer fs registry c).result =
        .ok (coalesce_claim c) ∧
      (recipe_wrapper true producer fs registry c).registry = registry ∧
      (outputs_exist fs c = true →
        ∀ p ∈ output_files c,
          (recipe_wrapper true producer fs registry c).fs p = none) ∧
      (outputs_exist fs c = false →
        (recipe_wrapper true producer fs registry c).fs = fs) ∧
      (∀ p, p ∉ output_files c →
        (recipe_wrapper true producer fs registry c).fs p = fs p) := by
  rw [recipe_wrapper_clean producer fs registry c]
  refine ⟨rfl, by rw [coalesce_eq], rfl, ?_, ?_, ?_⟩
  · intro hex p hp
    simp only [clean_fs, hex, if_true]
    rw [remove_all_apply]
    simp [hp]
  · intro hex
    simp [clean_fs, hex]
  · intro p hp
    by_cases hex : outputs_exist fs c = true
    · simp only [clean_fs, hex, if_true]
      rw [remove_all_apply]
      simp [hp]
    · simp only [clean_fs]
      rw [if_neg hex]

/-- A filesystem containing both a and b. -/
def fs4b : FS :=
  fun p => if p = "a" then some 1 else if p = "b" then some 2 else none

/-- C4 witness: when every output file exists, clean mode does remove
    the concrete file a. -/
theorem C4_witness :
    (recipe_wrapper true producerId fs4b [] ctx4).fs "a" = none :=
  (C4_clean_mode producerId fs4b [] ctx4).2.2.2.1 rfl "a" (by decide)

/-! ## The build facade (core.Build.build and its helpers)

    Producers are abstracted as a map from resource name to an optional
    value; none means requiring that resource raises.  The temp-file
    registry is taken as an input of the build call. -/

/-- A registered resource: its flat name and its attribute markers. -/
structure Resource : Type where
  name : String
  attrs : List String
deriving DecidableEq

/-- The errors the build driver can surface: a successfully constructed
    TargetConflictError (carrying its message), a TypeError escaping a
    broken error construction, an unknown-target BuildError, and an
    abstract producer failure. -/
inductive BErr : Type where
  | targetConflict (message : String)
  | typeError
  | unknownTarget (t : Option String)
  | producerRaised (name : String)

/-- injector.scan_resources restricted to one attribute marker; each
    result models the (name, attrs) tuple the injector yields. -/
def scan_resources (rs : List Resource) (tag : String) : List Resource :=
  rs.filter (fun r => r.attrs.contains tag)

/-- An item handed to str.join: either an actual string or one of the
    (name, attrs) scan tuples. -/
inductive JoinArg : Type where
  | strArg (s : String)
  | tupleArg (r : Resource)

/-- str.join accepts only strings; a tuple item is a TypeError. -/
def as_string : JoinArg → Option String
  | .strArg s => some s
  | .tupleArg _ => none

/-- Python sep.join(items): the joined string, or none for the
    TypeError raised on a non-string item. -/
def join_args (sep : String) (items : List JoinArg) : Option String :=
  (items.mapM as_string).map (String.intercalate sep)

/-- TargetConflictError.__init__(message, targets): formats
    message + ". (" + ", ".join(targets) + ")"; when the join raises
    TypeError (targets holds tuples, not strings) the constructor
    itself fails and no TargetConflictError is produced. -/
def TargetConflictError_message (message : String) (targets : List JoinArg) :
    Option String :=
  (join_args ", " targets).map (fun j => message ++ ". (" ++ j ++ ")")

/-- Build._find_setup_methods. -/
def find_setup_methods (rs : List Resource) : List String :=
  (scan_resources rs "bakery-setup").map (·.name)

/-- Build._find_targets. -/
def find_targets (rs : List Resource) : List String :=
  (scan_resources rs "bakery-target").map (·.name)

/-- Build._find_default_target: with no bakery-default resource fall
    back to the scan of ALL bakery-target resources and return the first
    one (or none when there is no target either); with more than one
    default attempt to raise TargetConflictError over the raw scan
    results — whose constructor joins the (name, attrs) tuples and so
    raises TypeError instead; otherwise return the single default. -/
def find_default_target (rs : List Resource) : Except BErr (Option String) :=
  let defaults := scan_resources rs "bakery-default"
  if defaults.isEmpty then
    .ok ((scan_resources rs "bakery-target").head?.map (·.name))
  else if 1 < defaults.length then
    .error (match TargetConflictError_message "Multiple default targets defined."
              (defaults.map .tupleArg) with
            | some msg => .targetConflict msg
            | none => .typeError)
  else
    .ok (defaults.head?.map (·.name))

/-- Requiring a list of resources in order, recording every producer
    invocation and stopping at the first raise (the sequential loops and
    the list comprehension in Build.build). -/
def run_sequence (producers : String → Option Value) (names : List String) :
    Except String (List Value) × List String :=
  names.foldl
    (fun acc n =>
      match acc.1 with
      | .error _ => acc
      | .ok vs =>
          match producers n with
          | some v => (.ok (vs ++ [v]), acc.2 ++ [n])
          | none => (.error n, acc.2 ++ [n]))
    (.ok [], [])

/-- The observable outcome of Build.build. -/
structure BuildOutcome : Type where
  result : Except BErr (List Value)
  invoked : List String
  cleanupRan : Bool
  fs : FS

/-- Build.build: choose the targets (defaulting through
    _find_default_target when none were passed), validate them against
    the bakery-target scan, require every setup resource, require every
    target, and only then run _clean_temp_files, which removes every
    registered file; there is no finalizer, so an error propagates
    without the cleanup. -/
def Build_build (rs : List Resource) (producers : String → Option Value)
    (targets0 : List String) (registry : List String) (fs : FS) :
    BuildOutcome :=
  match (if targets0.isEmpty then
          Except.map (fun t => [t]) (find_default_target rs)
        else .ok (targets0.map some)) with
  | .error e => ⟨.error e, [], false, fs⟩
  | .ok targets =>
      match targets.find? (fun t => !(t.elim false (find_targets rs).contains)) with
      | some bad => ⟨.error (.unknownTarget bad), [], false, fs⟩
      | none =>
          match run_sequence producers (find_setup_methods rs) with
          | (.error n, slog) => ⟨.error (.producerRaised n), slog, false, fs⟩
          | (.ok _, slog) =>
              match run_sequence producers (targets.filterMap id) with
              | (.error n, tlog) =>
                  ⟨.error (.producerRaised n), slog ++ tlog, false, fs⟩
              | (.ok vs, tlog) =>
                  ⟨.ok vs, slog ++ tlog, true, remove_all fs registry⟩

/-! ## Claim C5 -/

/-- A single registered target resource named a. -/
def res5 : List Resource := [⟨"a", ["bakery-target"]⟩]

/-- Producers that always raise. -/
def producersFail : String → Option Value := fun _ => none

/-- Producers that always succeed. -/
def producersOk : String → Option Value := fun _ => some (.str "v")

/-- A filesystem containing only the registered temp file. -/
def fs5 : FS := fun p => if p = "tmp" then some 5 else none

/-- C5 counterexample: when resolving the target raises, the temp-file
    cleanup does NOT run (the registered file tmp survives), refuting the
    guaranteed-finalizer claim. -/
theorem C5_counterexample :
    (Build_build res5 producersFail ["a"] ["tmp"] fs5).result =
        .error (.producerRaised "a") ∧
      (Build_build res5 producersFail ["a"] ["tmp"] fs5).cleanupRan = false ∧
      (Build_build res5 producersFail ["a"] ["tmp"] fs5).fs "tmp" = some 5 :=
  ⟨rfl, rfl, rfl⟩

/-- C5 (amended): the temp-file cleanup runs if and only if every target
    resolves successfully; on success every recorded file is removed,
    and on failure the filesystem is left untouched by the cleanup. -/
theorem C5_cleanup_on_success (rs : List Resource)
    (producers : String → Option Value) (targets0 : List String)
    (registry : List String) (fs : FS) :
    ((Build_build rs producers targets0 registry fs).cleanupRan = true ↔
      (∃ vs, (Build_build rs producers targets0 registry fs).result = .ok vs)) ∧
    ((Build_build rs producers targets0 registry fs).cleanupRan = true →
      ∀ p ∈ registry, (Build_build rs producers targets0 registry fs).fs p = none) ∧
    ((Build_build rs producers targets0 registry fs).cleanupRan = false →
      (Build_build rs producers targets0 registry fs).fs = fs) := by
  unfold Build_build
  split
  · exact ⟨by simp, by simp, fun _ => rfl⟩
  · split
    · exact ⟨by simp, by simp, fun _ => rfl⟩
    · split
      · exact ⟨by simp, by simp, fun _ => rfl⟩
      · split
        · exact ⟨by simp, by simp, fun _ => rfl⟩
        · refine ⟨by simp, ?_, by simp⟩
          intro _ p hp
          dsimp only
          rw [remove_all_apply]
          simp [hp]

/-- C5 witness: on a successful build the registered temp file is
    removed by the cleanup. -/
theorem C5_witness :
    (Build_build res5 producersOk ["a"] ["tmp"] fs5).fs "tmp" = none :=
  (C5_cleanup_on_success res5 producersOk ["a"] ["tmp"] fs5).2.1 rfl "tmp"
    (by decide)

/-! ## Claim C6 -/

/-- Two resources both marked default. -/
def res6 : List Resource :=
  [⟨"a", ["bakery-target", "bakery-default"]⟩,
   ⟨"b", ["bakery-target", "bakery-default"]⟩]

/-- C6: with no explicit targets and two bakery-default resources the
    build does fail at build start, before any producer runs — but with
    a TypeError, not the TargetConflictError the raise statement names:
    the constructor joins the (name, attrs) scan tuples with
    str.join, which only accepts strings.  Evaluated at the concrete
    failing input. -/
theorem C6_type_error :
    TargetConflictError_message "Multiple default targets defined."
        ((scan_resources res6 "bakery-default").map .tupleArg) = none ∧
      (Build_build res6 producersOk [] [] fs0).result = .error .typeError ∧
      (Build_build res6 producersOk [] [] fs0).invoked = [] :=
  ⟨rfl, rfl, rfl⟩

/-! ## Claim C7 -/

/-- A registry with a target but no default at all. -/
def res7 : List Resource := [⟨"a", ["bakery-target"]⟩]

/-- C7 counterexample: with no resource marked bakery-default the build
    does NOT error: it falls back to the first bakery-target resource,
    requires it and succeeds. -/
theorem C7_counterexample :
    scan_resources res7 "bakery-default" = [] ∧
      (Build_build res7 producersOk [] [] fs0).result = .ok [.str "v"] ∧
      (Build_build res7 producersOk [] [] fs0).invoked = ["a"] :=
  ⟨rfl, rfl, rfl⟩

/-- C7 (amended): with no explicit targets, a single bakery-default
    resource is used as the target; with no default at all the FIRST
    bakery-target resource is used instead; only when there is neither a
    default nor any target does the build error (Unknown target: None). -/
theorem C7_default_selection (rs : List Resource)
    (producers : String → Option Value) (registry : List String) (fs : FS) :
    (∀ d, scan_resources rs "bakery-default" = [d] →
      Build_build rs producers [] registry fs =
        Build_build rs producers [d.name] registry fs) ∧
    (∀ r rest, scan_resources rs "bakery-default" = [] →
      scan_resources rs "bakery-target" = r :: rest →
      Build_build rs producers [] registry fs =
        Build_build rs producers [r.name] registry fs) ∧
    (scan_resources rs "bakery-default" = [] →
      scan_resources rs "bakery-target" = [] →
      Build_build rs producers [] registry fs =
        ⟨.error (.unknownTarget none), [], false, fs⟩) := by
  refine ⟨?_, ?_, ?_⟩
  · intro d hd
    have h1 : find_default_target rs = .ok (some d.name) := by
      simp [find_default_target, hd]
    simp [Build_build, h1, Except.map]
  · intro r rest h0 ht
    have h1 : find_default_target rs = .ok (some r.name) := by
      simp [find_default_target, h0, ht]
    simp [Build_build, h1, Except.map]
  · intro h0 ht
    have h1 : find_default_target rs = .ok none := by
      simp [find_default_target, h0, ht]
    simp [Build_build, h1, Except.map, List.find?, Option.elim]

/-- One default among several targets. -/
def res7b : List Resource :=
  [⟨"a", ["bakery-target"]⟩, ⟨"b", ["bakery-target", "bakery-default"]⟩]

/-- C7 witness: a build with no targets behaves exactly as a build of
    the single default b. -/
theorem C7_witness :
    Build_build res7b producersOk [] [] fs0 =
      Build_build res7b producersOk ["b"] [] fs0 :=
  (C7_default_selection res7b producersOk [] fs0).1
    ⟨"b", ["bakery-target", "bakery-default"]⟩ (by decide)

/-! ## The shell runner (core.Build.shell / shell.Shell.__call__)

    The subprocess itself is an oracle mapping the assembled argv to its
    raw stdout lines, raw stderr lines and exit code; the concurrent
    line-reading loop is modelled by its effect, each raw line being
    decoded and stripped into its buffer in stream order. -/

/-- The payload of SubprocessError(cmd_line, output, err_output,
    returncode). -/
structure SubprocessErrorData : Type where
  cmd_line : List String
  output : List String
  err_output : List String
  returncode : Int

/-- Argv assembly: compose(flat_map(x, degenerate), flat_map(x, str)) on
    the positional arguments; leaves are strings, over which degenerate
    and str are the identity, so this is structural flattening. -/
def assemble_argv (args : List Value) : List String :=
  (args.map flat_map).flatten

/-- Python str.strip: drop leading and trailing whitespace. -/
def pystrip (s : String) : String :=
  ⟨(s.data.dropWhile Char.isWhitespace).reverse.dropWhile Char.isWhitespace
    |>.reverse⟩

/-- The I/O loop on one stream: each line is decoded and stripped
    (Python str.strip) and appended to the stream buffer in order. -/
def read_stream (raw : List String) : List String :=
  raw.map pystrip

/-- Shell.__call__ after spawn: assemble the argv, run the process,
    capture the stripped stdout and stderr lines, and on exit return the
    stdout buffer when the exit code is zero or raise SubprocessError
    with the argv, both buffers and the exit code otherwise. -/
def Shell_call (proc : List String → List String × List String × Int)
    (args : List Value) : Except SubprocessErrorData (List String) :=
  let cmd_line := assemble_argv args
  let res := proc cmd_line
  let output := read_stream res.1
  let err_output := read_stream res.2.1
  if res.2.2 ≠ 0 then .error ⟨cmd_line, output, err_output, res.2.2⟩
  else .ok output

/-- C8: once both streams reached EOF and the process exited, a zero
    exit code returns the captured stdout buffer and a nonzero exit code
    raises SubprocessError carrying the assembled argv, the captured
    stdout lines, the captured stderr lines, and the exit code. -/
theorem C8_shell_exit (proc : List String → List String × List String × Int)
    (args : List Value) :
    ((proc (assemble_argv args)).2.2 = 0 →
      Shell_call proc args = .ok (read_stream (proc (assemble_argv args)).1)) ∧
    ((proc (assemble_argv args)).2.2 ≠ 0 →
      Shell_call proc args =
        .error ⟨assemble_argv args,
          read_stream (proc (assemble_argv args)).1,
          read_stream (proc (assemble_argv args)).2.1,
          (proc (assemble_argv args)).2.2⟩) := by
  constructor
  · intro h
    simp [Shell_call, h]
  · intro h
    simp [Shell_call, h]

/-- A process oracle that always fails with exit code 2, echoing one
    line on each stream. -/
def procFail : List String → List String × List String × Int :=
  fun _ => (["out line\n"], ["err line\n"], 2)

/-- A process oracle that always succeeds. -/
def procOk : List String → List String × List String × Int :=
  fun _ => (["ok\n"], [], 0)

/-- C8 witness: both branches at concrete processes and arguments. -/
theorem C8_witness :
    Shell_call procOk [.str "cc", .str "-c"] = .ok ["ok"] ∧
      Shell_call procFail [.str "cc", .str "-c"] =
        .error ⟨["cc", "-c"], ["out line"], ["err line"], 2⟩ := by
  constructor
  · have h := (C8_shell_exit procOk [.str "cc", .str "-c"]).1 rfl
    rw [h]
    rfl
  · have h := (C8_shell_exit procFail [.str "cc", .str "-c"]).2 (by decide)
    rw [h]
    rfl

/-! ## The exception hierarchy (exceptions.py / core.py) -/

/-- The exception classes the engine defines, plus the Python root
    Exception. -/
inductive PyClass : Type where
  | pyException
  | buildError
  | targetConflictError
  | jobError
  | subprocessError
  | evaluationError
  | internalError
deriving DecidableEq

/-- The direct base class of each class, as written in the source:
    BuildError(Exception), TargetConflictError(BuildError),
    JobError(BuildError), SubprocessError(JobError),
    EvaluationError(BuildError), InternalError(Exception). -/
def superclass : PyClass → Option PyClass
  | .pyException => none
  | .buildError => some .pyException
  | .targetConflictError => some .buildError
  | .jobError => some .buildError
  | .subprocessError => some .jobError
  | .evaluationError => some .buildError
  | .internalError => some .pyException

/-- Subclass test along the superclass chain, fuelled by the chain
    length (the hierarchy has depth at most four). -/
def isSubclassAux : Nat → PyClass → PyClass → Bool
  | 0, _, _ => false
  | n + 1, c, d =>
      c = d ||
        match superclass c with
        | some p => isSubclassAux n p d
        | none => false

/-- issubclass as on the modelled hierarchy. -/
def issubclass (c d : PyClass) : Bool :=
  isSubclassAux 8 c d

/-- C10: JobError, SubprocessError, EvaluationError and
    TargetConflictError are all BuildError subclasses, while
    InternalError derives directly from Exception and is not a
    BuildError. -/
theorem C10_error_taxonomy :
    issubclass .jobError .buildError = true ∧
      issubclass .subprocessError .buildError = true ∧
      issubclass .evaluationError .buildError = true ∧
      issubclass .targetConflictError .buildError = true ∧
      superclass .internalError = some .pyException ∧
      issubclass .internalError .buildError = false := by
  decide

end Bakery
